import Mathlib

/-
Verification of the sap_odata core against its specification.

The development shallowly embeds the Python sources (src/query.py,
src/metadata.py, src/models.py, src/explorer.py) into Lean:

* Python values that flow through the literal formatters are modelled by
  `PyVal` (a float is carried together with its `str()` rendering, which is
  all the formatters use of it);
* `xml.etree.ElementTree` documents are modelled by the tree type `XElem`,
  with `find`/`findall`/`iter` lookups translated to their documented
  first-direct-child / all-direct-children / preorder semantics;
* the mutable module-level namespace table `NS` of src/metadata.py is
  modelled by threading its only mutated entry (`NS["edm"]`) through
  `parse_metadata` as explicit state;
* mutate-and-return-self builder methods of `Query` become functional
  updates; execution-time collaborators (the HTTP client) are passed in as
  function parameters, and raising paths are modelled with `Except`.

All strings handled by the claims are ASCII; the `urllib.parse` model
below is byte-faithful on that fragment (and still percent-encodes the
UTF-8 bytes of any non-ASCII character, as CPython does).
-/

namespace SapOData

/-- Python values reaching the literal formatters of src/query.py:
`None`, `bool`, `int`, `float` and `str`.  A float is represented by its
`str()` rendering, the only thing `_format_literal` uses of it. -/
inductive PyVal where
  | none
  | bool (b : Bool)
  | int (n : Int)
  | float (repr : String)
  | str (s : String)
deriving DecidableEq, Repr

/-- ASCII decimal digit, as matched by the regex class `\d` on ASCII input. -/
def isDigitCh (c : Char) : Bool := '0' ≤ c && c ≤ '9'

/-- Character class `[0-9a-f]` under `re.IGNORECASE`, i.e. a hex digit of
either case. -/
def isHexCI (c : Char) : Bool :=
  ('0' ≤ c && c ≤ '9') || ('a' ≤ c && c ≤ 'f') || ('A' ≤ c && c ≤ 'F')

/-- Consume exactly `n` characters satisfying `p`; return the rest. -/
def chrRun (p : Char → Bool) : Nat → List Char → Option (List Char)
  | 0, cs => some cs
  | _ + 1, [] => Option.none
  | n + 1, c :: cs => if p c then chrRun p n cs else Option.none

/-- After an already-consumed prefix, demand a `-` and then `n` hex digits
(the building block of the GUID regex of src/query.py). -/
def dashHex (n : Nat) : Option (List Char) → Option (List Char)
  | some ('-' :: cs) => chrRun isHexCI n cs
  | _ => Option.none

/-- Matcher for the body of `_GUID_RE`:
`[0-9a-f]{8}-[0-9a-f]{4}-[0-9a-f]{4}-[0-9a-f]{4}-[0-9a-f]{12}` (case
insensitive), anchored on both sides. -/
def guidCore (cs : List Char) : Bool :=
  match dashHex 12 (dashHex 4 (dashHex 4 (dashHex 4 (chrRun isHexCI 8 cs)))) with
  | some [] => true
  | _ => false

/-- A string of the canonical 8-4-4-4-12 hex GUID shape (case-insensitive). -/
def guidShape (s : String) : Bool := guidCore s.data

/-- Python's `$` anchor (no `re.MULTILINE`): the pattern may also stop just
before one trailing newline. -/
def dollarAnchored (p : List Char → Bool) (cs : List Char) : Bool :=
  p cs ||
    (match cs.getLast? with
     | some c => c = '\n' && p cs.dropLast
     | Option.none => false)

/-- Model of `_GUID_RE.match(value)` being truthy (src/query.py line 32). -/
def guidReMatch (s : String) : Bool := dollarAnchored guidCore s.data

/-- Matcher for the optional time part `T\d{2}:\d{2}:\d{2}Z?` of the
date-time regex of src/query.py line 35. -/
def timeTail (cs : List Char) : Bool :=
  match chrRun isDigitCh 2 cs with
  | some (':' :: cs1) =>
    match chrRun isDigitCh 2 cs1 with
    | some (':' :: cs2) =>
      match chrRun isDigitCh 2 cs2 with
      | some [] => true
      | some ['Z'] => true
      | _ => false
    | _ => false
  | _ => false

/-- Matcher for the body of `^\d{4}-\d{2}-\d{2}(T\d{2}:\d{2}:\d{2}Z?)?$`. -/
def dateCore (cs : List Char) : Bool :=
  match chrRun isDigitCh 4 cs with
  | some ('-' :: cs1) =>
    match chrRun isDigitCh 2 cs1 with
    | some ('-' :: cs2) =>
      match chrRun isDigitCh 2 cs2 with
      | some [] => true
      | some ('T' :: cs3) => timeTail cs3
      | _ => false
    | _ => false
  | _ => false

/-- Model of `re.match(r"^\d{4}-\d{2}-\d{2}(T\d{2}:\d{2}:\d{2}Z?)?$", value)`
being truthy. -/
def dateReMatch (s : String) : Bool := dollarAnchored dateCore s.data

/-- A date-only match of the shape above (`\d{4}-\d{2}-\d{2}` with no time
part); used by the spec-modelled dialect-A formatter. -/
def dateOnlyShape (s : String) : Bool :=
  match chrRun isDigitCh 4 s.data with
  | some ('-' :: cs1) =>
    match chrRun isDigitCh 2 cs1 with
    | some ('-' :: cs2) =>
      match chrRun isDigitCh 2 cs2 with
      | some [] => true
      | _ => false
    | _ => false
  | _ => false

/-- Python `value.replace("'", "''")`: double every embedded single quote. -/
def escapeQuotes (v : String) : String :=
  String.mk (v.data.flatMap fun c => if c = '\'' then ['\'', '\''] else [c])

/-- Embedding of `_format_literal` (src/query.py lines 20-40): format a
Python value as an OData V4 (dialect B) literal. -/
def format_literal : PyVal → String
  | PyVal.none => "null"
  | PyVal.bool b => if b then "true" else "false"
  | PyVal.int n => toString n
  | PyVal.float r => r
  | PyVal.str v =>
    if guidReMatch v then v
    else if dateReMatch v then v
    else "'" ++ escapeQuotes v ++ "'"

/-- Embedding of `_format_key_literal` (src/query.py lines 43-54): the V4
key-literal formatter; its string branch repeats the rules of
`_format_literal` and every other value is delegated to it. -/
def format_key_literal : PyVal → String
  | PyVal.str v =>
    if guidReMatch v then v
    else if dateReMatch v then v
    else "'" ++ escapeQuotes v ++ "'"
  | v => format_literal v

/-- Modelled from the spec: the dialect-A (first wire-format generation)
literal formatter is not present under src/ (src/query.py contains only the
dialect-B builder).  Spec §4.3: GUID-shaped strings are wrapped
`guid'<value>'`; ISO date / date-time shapes are wrapped
`datetime'<ISO-8601, defaulting time to 00:00:00 if only a date was given>'`;
any other string is single-quoted with embedded quotes doubled; booleans are
`true`/`false`; null is `null`; integers are decimal; floats are suffixed
with `m`. -/
def formatLiteralA : PyVal → String
  | PyVal.none => "null"
  | PyVal.bool b => if b then "true" else "false"
  | PyVal.int n => toString n
  | PyVal.float r => r ++ "m"
  | PyVal.str v =>
    if guidShape v then "guid'" ++ v ++ "'"
    else if dateOnlyShape v then "datetime'" ++ v ++ "T00:00:00'"
    else if dateReMatch v then "datetime'" ++ v ++ "'"
    else "'" ++ escapeQuotes v ++ "'"

/-- Modelled from the spec: key-literal and filter-literal formatting share
the same literal rules per dialect (spec §4.3), so the dialect-A key
formatter coincides with the dialect-A filter formatter. -/
def formatKeyLiteralA : PyVal → String := formatLiteralA

/-- The characters CPython's `urllib.parse.quote` never encodes:
ASCII letters, digits and `_.-~`. -/
def alwaysSafeChar (c : Char) : Bool :=
  ('A' ≤ c && c ≤ 'Z') || ('a' ≤ c && c ≤ 'z') || ('0' ≤ c && c ≤ '9') ||
    c = '_' || c = '.' || c = '-' || c = '~'

/-- Upper-case hex digit of a value below 16 (CPython percent-escapes use
upper-case hex). -/
def hexDigitUpper (n : Nat) : Char :=
  if n < 10 then Char.ofNat ('0'.toNat + n) else Char.ofNat ('A'.toNat + n - 10)

/-- The UTF-8 bytes of a character (CPython encodes non-safe characters
byte by byte with the default `encoding="utf-8"`). -/
def utf8Bytes (c : Char) : List Nat :=
  let n := c.toNat
  if n < 0x80 then [n]
  else if n < 0x800 then
    [0xC0 ||| (n >>> 6), 0x80 ||| (n &&& 0x3F)]
  else if n < 0x10000 then
    [0xE0 ||| (n >>> 12), 0x80 ||| ((n >>> 6) &&& 0x3F), 0x80 ||| (n &&& 0x3F)]
  else
    [0xF0 ||| (n >>> 18), 0x80 ||| ((n >>> 12) &&& 0x3F),
      0x80 ||| ((n >>> 6) &&& 0x3F), 0x80 ||| (n &&& 0x3F)]

/-- A percent escape `%XX` for one byte. -/
def pctEncode (n : Nat) : List Char :=
  ['%', hexDigitUpper (n / 16 % 16), hexDigitUpper (n % 16)]

/-- Model of `urllib.parse.quote(s, safe)`: keep the always-safe characters
and the (ASCII) characters of `safe`, percent-encode the UTF-8 bytes of
everything else. -/
def pyQuote (s safe : String) : String :=
  String.mk (s.data.flatMap fun c =>
    if alwaysSafeChar c || safe.data.contains c then [c]
    else (utf8Bytes c).flatMap pctEncode)

/-- Model of `urllib.parse.quote_plus(s, safe)`: when the string holds a
space, quote with the space added to `safe` and then turn every space into
`+` (CPython does this replacement whether or not the caller already put the
space in `safe`). -/
def pyQuotePlus (s safe : String) : String :=
  if s.data.contains ' ' then
    String.mk ((pyQuote s (safe ++ " ")).data.map fun c => if c = ' ' then '+' else c)
  else pyQuote s safe

/-- Model of `urllib.parse.urlencode(params, safe=...)` on string pairs:
quote-plus each name and value and join with `&` and `=`. -/
def pyUrlencode (params : List (String × String)) (safe : String) : String :=
  String.intercalate "&"
    (params.map fun p => pyQuotePlus p.1 safe ++ "=" ++ pyQuotePlus p.2 safe)

/-- Embedding of `FilterExpression` (src/query.py lines 61-83): an immutable
wrapper around one predicate string (field `_expr`). -/
structure FilterExpression where
  expr : String
deriving DecidableEq, Repr

/-- Embedding of `FilterExpression.__and__`: `<a> and <b>`, no parentheses. -/
def FilterExpression.and (a b : FilterExpression) : FilterExpression :=
  ⟨a.expr ++ " and " ++ b.expr⟩

/-- Embedding of `FilterExpression.__or__`: `(<a> or <b>)`, parenthesized. -/
def FilterExpression.or (a b : FilterExpression) : FilterExpression :=
  ⟨"(" ++ a.expr ++ " or " ++ b.expr ++ ")"⟩

/-- Embedding of `FilterExpression.__invert__`: `not (<a>)`. -/
def FilterExpression.not (a : FilterExpression) : FilterExpression :=
  ⟨"not (" ++ a.expr ++ ")"⟩

/-- Embedding of `F._compare` (src/query.py lines 93-95):
`<field> <op> <literal>` with the dialect-B literal formatter. -/
def F.compare (fieldName op : String) (value : PyVal) : FilterExpression :=
  ⟨fieldName ++ " " ++ op ++ " " ++ format_literal value⟩

/-- Embedding of `F.eq`. -/
def F.eq (fieldName : String) (value : PyVal) : FilterExpression :=
  F.compare fieldName "eq" value

/-- Embedding of `F.ne`. -/
def F.ne (fieldName : String) (value : PyVal) : FilterExpression :=
  F.compare fieldName "ne" value

/-- Embedding of `F.gt`. -/
def F.gt (fieldName : String) (value : PyVal) : FilterExpression :=
  F.compare fieldName "gt" value

/-- Embedding of `F.ge`. -/
def F.ge (fieldName : String) (value : PyVal) : FilterExpression :=
  F.compare fieldName "ge" value

/-- Embedding of `F.lt`. -/
def F.lt (fieldName : String) (value : PyVal) : FilterExpression :=
  F.compare fieldName "lt" value

/-- Embedding of `F.le`. -/
def F.le (fieldName : String) (value : PyVal) : FilterExpression :=
  F.compare fieldName "le" value

/-- Embedding of `F.contains` (dialect B spelling `contains(field,'v')`). -/
def F.contains (fieldName v : String) : FilterExpression :=
  ⟨"contains(" ++ fieldName ++ ",'" ++ escapeQuotes v ++ "')"⟩

/-- Embedding of `F.raw`: store the expression string verbatim. -/
def F.raw (expression : String) : FilterExpression := ⟨expression⟩

/-- Argument of `Query.filter`, which Python types as
`str | FilterExpression` and immediately passes through `str(...)`. -/
inductive StrOrFilter where
  | s (v : String)
  | f (v : FilterExpression)

/-- Python `str(expression)` on a `str | FilterExpression` argument
(`FilterExpression.__str__` returns the wrapped `_expr`). -/
def StrOrFilter.toStr : StrOrFilter → String
  | .s v => v
  | .f v => v.expr

/-- Embedding of the `Query` builder state (src/query.py lines 174-191).
Field names keep the Python attribute names.  `_client` holds a reference
to an external `SAPODataClient`; only its presence matters to the builder,
so it is modelled as `Option Unit` and the client's behaviour is passed to
the execute-style operations as a function parameter. -/
structure Query where
  _entity_set : String
  _select : List String := []
  _filter : Option String := Option.none
  _expand : List String := []
  _orderby : List String := []
  _top : Option Int := Option.none
  _skip : Option Int := Option.none
  _count : Bool := false
  _count_only : Bool := false
  _format : String := "json"
  _keys : Option (List (String × PyVal)) := Option.none
  _nav : List String := []
  _custom : List (String × String) := []
  _action_name : Option String := Option.none
  _service_path : Option String := Option.none
  _client : Option Unit := Option.none

/-- Embedding of `Query.__init__`: a fresh builder for an entity set. -/
def Query.init (entity_set : String) : Query := { _entity_set := entity_set }

/-- Embedding of `Query.select` (varargs become a list): extend. -/
def Query.select (q : Query) (fields : List String) : Query :=
  { q with _select := q._select ++ fields }

/-- Embedding of `Query.filter`: store `str(expression)`, replacing any
previous filter. -/
def Query.filter (q : Query) (expression : StrOrFilter) : Query :=
  { q with _filter := some expression.toStr }

/-- Embedding of `Query.expand`: extend. -/
def Query.expand (q : Query) (nav_props : List String) : Query :=
  { q with _expand := q._expand ++ nav_props }

/-- Embedding of `Query.orderby`: extend. -/
def Query.orderby (q : Query) (fields : List String) : Query :=
  { q with _orderby := q._orderby ++ fields }

/-- Embedding of `Query.top`. -/
def Query.top (q : Query) (n : Int) : Query := { q with _top := some n }

/-- Embedding of `Query.skip`. -/
def Query.skip (q : Query) (n : Int) : Query := { q with _skip := some n }

/-- Embedding of `Query.count`. -/
def Query.count (q : Query) (enabled : Bool := true) : Query :=
  { q with _count := enabled }

/-- Embedding of `Query.format`. -/
def Query.format (q : Query) (fmt : String) : Query := { q with _format := fmt }

/-- Embedding of `Query.key(value)` with a positional (non-None) argument:
Python stores the reserved-marker dict `{"__single__": value}`. -/
def Query.keySingle (q : Query) (value : PyVal) : Query :=
  { q with _keys := some [("__single__", value)] }

/-- Embedding of `Query.key(**keys)` with named arguments: Python stores
the keyword dict, whose iteration order is the declaration order. -/
def Query.keyNamed (q : Query) (keys : List (String × PyVal)) : Query :=
  { q with _keys := some keys }

/-- Embedding of `Query.nav` (varargs become a list): extend. -/
def Query.nav (q : Query) (nav_props : List String) : Query :=
  { q with _nav := q._nav ++ nav_props }

/-- Embedding of `Query.action`: set the bound-action name. -/
def Query.action (q : Query) (name : String) : Query :=
  { q with _action_name := some name }

/-- Embedding of `Query.custom`: append one extra parameter pair. -/
def Query.custom (q : Query) (name value : String) : Query :=
  { q with _custom := q._custom ++ [(name, value)] }

/-- First value stored under a key in a Python dict modelled as an
association list (keys are unique by construction). -/
def assocFind (k : String) : List (String × PyVal) → Option PyVal
  | [] => Option.none
  | (k', v) :: rest => if k' = k then some v else assocFind k rest

/-- Embedding of `Query.build_path` (src/query.py lines 301-324): entity set,
optional parenthesized key clause (positional `__single__` marker or
comma-joined `name=literal` pairs), `/`-joined navigation segments, the
bound-action segment when truthy, and a trailing `/$count` in count-only
mode. -/
def Query.build_path (q : Query) : String :=
  let path := q._entity_set
  let path :=
    match q._keys with
    | Option.none => path
    | some ks =>
      match assocFind "__single__" ks with
      | some v => path ++ "(" ++ format_key_literal v ++ ")"
      | Option.none =>
        path ++ "(" ++
          String.intercalate "," (ks.map fun kv => kv.1 ++ "=" ++ format_key_literal kv.2)
          ++ ")"
  let path := if q._nav.isEmpty then path else path ++ "/" ++ String.intercalate "/" q._nav
  let path :=
    match q._action_name with
    | some a => if a = "" then path else path ++ "/" ++ a
    | Option.none => path
  if q._count_only then path ++ "/$count" else path

/-- Embedding of `Query.build` (src/query.py lines 328-352): collect the set
parameters in the fixed order select, filter, expand, orderby, top, skip,
count, format (the format parameter is dropped in count-only mode), then the
custom pairs, and url-encode them with `safe="$,/ '"`.  The emptiness tests
mirror Python truthiness (`if self._select:`, `if self._filter:`, ...). -/
def Query.build (q : Query) : String :=
  let params : List (String × String) := []
  let params :=
    if q._select.isEmpty then params
    else params ++ [("$select", String.intercalate "," q._select)]
  let params :=
    match q._filter with
    | some f => if f = "" then params else params ++ [("$filter", f)]
    | Option.none => params
  let params :=
    if q._expand.isEmpty then params
    else params ++ [("$expand", String.intercalate "," q._expand)]
  let params :=
    if q._orderby.isEmpty then params
    else params ++ [("$orderby", String.intercalate "," q._orderby)]
  let params :=
    match q._top with
    | some n => params ++ [("$top", toString n)]
    | Option.none => params
  let params :=
    match q._skip with
    | some n => params ++ [("$skip", toString n)]
    | Option.none => params
  let params := if q._count then params ++ [("$count", "true")] else params
  let params :=
    if q._format ≠ "" && !q._count_only then params ++ [("$format", q._format)]
    else params
  let params := params ++ q._custom
  pyUrlencode params "$,/ '"

/-- The configuration-error message of `Query._require_client`
(src/query.py lines 356-362). -/
def notAttachedMsg : String :=
  "This Query is not attached to a client. Use client.query(service_path, entity_set) to create an executable query."

/-- The configuration-error message of `Query.execute_action` when no
action name is set (src/query.py line 379). -/
def noActionMsg : String :=
  "No action set on this query. Call .action('Name') first."

/-- Errors of the execute-style operations: a `RuntimeError` raised by the
builder itself, or an error propagated from the external transport. -/
inductive ExecErr (ε : Type) where
  | runtime (msg : String)
  | ext (e : ε)
deriving DecidableEq

/-- Embedding of `Query._require_client`: raise a `RuntimeError` unless both
the client and the service path are attached. -/
def Query.require_client (q : Query) : Except String (Unit × String) :=
  match q._client, q._service_path with
  | some c, some sp => Except.ok (c, sp)
  | _, _ => Except.error notAttachedMsg

/-- Embedding of `Query.execute`: require the client, then delegate to
`client.execute_query(service_path, self)` (passed in as `run`). -/
def Query.execute {ε α : Type} (q : Query) (run : String → Query → Except ε α) :
    Except (ExecErr ε) α :=
  match q.require_client with
  | Except.error m => Except.error (ExecErr.runtime m)
  | Except.ok (_, sp) =>
    match run sp q with
    | Except.ok r => Except.ok r
    | Except.error e => Except.error (ExecErr.ext e)

/-- Python truthiness of the optional action name: `not self._action_name`
is true for `None` and for the empty string. -/
def actionNameFalsy : Option String → Bool
  | Option.none => true
  | some a => a = ""

/-- Embedding of `Query.execute_action`: require the client, then raise a
`RuntimeError` when no action name is set, else delegate to
`client._execute_bound_action(service_path, self, data)` (passed in as
`run`, with the optional body already applied). -/
def Query.execute_action {ε α : Type} (q : Query)
    (run : String → Query → Except ε α) : Except (ExecErr ε) α :=
  match q.require_client with
  | Except.error m => Except.error (ExecErr.runtime m)
  | Except.ok (_, sp) =>
    if actionNameFalsy q._action_name then Except.error (ExecErr.runtime noActionMsg)
    else
      match run sp q with
      | Except.ok r => Except.ok r
      | Except.error e => Except.error (ExecErr.ext e)

/-- Embedding of `Query.execute_all`: require the client, then delegate to
`client._execute_all(service_path, self, max_pages=max_pages)`. -/
def Query.execute_all {ε α : Type} (q : Query)
    (run : String → Query → Nat → Except ε α) (max_pages : Nat := 100) :
    Except (ExecErr ε) α :=
  match q.require_client with
  | Except.error m => Except.error (ExecErr.runtime m)
  | Except.ok (_, sp) =>
    match run sp q max_pages with
    | Except.ok r => Except.ok r
    | Except.error e => Except.error (ExecErr.ext e)

/-- Embedding of `Query.get_count` (src/query.py lines 391-400): require the
client, set `_count_only` to `True`, call
`client._execute_count(service_path, self)` (passed in as `run`), and
restore the previous `_count_only` in a `finally` block, whether the call
returned or raised.  The result pairs the outcome with the builder state
after the call. -/
def Query.get_count {ε : Type} (q : Query) (run : String → Query → Except ε Int) :
    Except (ExecErr ε) Int × Query :=
  match q.require_client with
  | Except.error m => (Except.error (ExecErr.runtime m), q)
  | Except.ok (_, sp) =>
    let prev := q._count_only
    let q' := { q with _count_only := true }
    let res :=
      match run sp q' with
      | Except.ok n => Except.ok n
      | Except.error e => Except.error (ExecErr.ext e)
    (res, { q' with _count_only := prev })

/-- Restatement of the claimed `build_path` layout (spec §4.3 / claim C5),
for comparison with the source embedding `Query.build_path`: the collection
name, then — if a key is set — a parenthesized clause (a single key-literal
for the positional form, or comma-joined `name=literal` pairs in declared
order for the named form), then navigation segments joined by `/`, then the
bound-action segment if set (a set-but-empty name is not emitted, matching
Python truthiness), then a trailing `/$count` segment in count-only mode. -/
def specBuildPath (q : Query) : String :=
  q._entity_set
    ++ (match q._keys with
        | Option.none => ""
        | some ks =>
          match assocFind "__single__" ks with
          | some v => "(" ++ format_key_literal v ++ ")"
          | Option.none =>
            "(" ++
              String.intercalate "," (ks.map fun kv => kv.1 ++ "=" ++ format_key_literal kv.2)
              ++ ")")
    ++ (if q._nav.isEmpty then "" else "/" ++ String.intercalate "/" q._nav)
    ++ (match q._action_name with
        | some a => if a = "" then "" else "/" ++ a
        | Option.none => "")
    ++ (if q._count_only then "/$count" else "")

/-- The builder of claim C1:
`Query("Flights").filter(F.eq("CarrierId","LH") & F.gt("Price",100)).top(5)`. -/
def c1Query : Query :=
  (((Query.init "Flights").filter
      (StrOrFilter.f
        (FilterExpression.and (F.eq "CarrierId" (PyVal.str "LH"))
          (F.gt "Price" (PyVal.int 100))))).top 5)

/-- C1, counterexample: the claimed output
`$filter=CarrierId eq 'LH' and Price gt 100&$top=5&$format=json` is not what
`build()` returns — `urllib.parse.urlencode` uses `quote_plus`, which turns
every space into `+` even though the space is listed in `safe`. -/
theorem c1_build_counterexample :
    c1Query.build ≠ "$filter=CarrierId eq 'LH' and Price gt 100&$top=5&$format=json" := by
  decide

/-- C1, amended: the build is deterministic and yields exactly the claimed
parameters in the claimed order, but with the spaces of the filter encoded
as `+`:
`$filter=CarrierId+eq+'LH'+and+Price+gt+100&$top=5&$format=json`. -/
theorem c1_build_amended :
    c1Query.build = "$filter=CarrierId+eq+'LH'+and+Price+gt+100&$top=5&$format=json" := by
  decide

/-- C3: for every string of the canonical 8-4-4-4-12 hex GUID shape
(case-insensitive), dialect-A formatting yields `guid'<s>'` and dialect-B
formatting yields `s` unchanged, in both the key-literal and the
filter-literal context.  (Dialect A is the spec-modelled formatter; dialect
B is the embedding of src/query.py.) -/
theorem guid_literal_roundtrip (s : String) (h : guidShape s = true) :
    formatLiteralA (PyVal.str s) = "guid'" ++ s ++ "'" ∧
    formatKeyLiteralA (PyVal.str s) = "guid'" ++ s ++ "'" ∧
    format_literal (PyVal.str s) = s ∧
    format_key_literal (PyVal.str s) = s := by
  have hre : guidReMatch s = true := by
    unfold guidReMatch dollarAnchored
    unfold guidShape at h
    simp [h]
  refine ⟨?_, ?_, ?_, ?_⟩ <;>
    simp [formatLiteralA, formatKeyLiteralA, format_literal, format_key_literal, h, hre]

/-- Witness for C3 at the concrete GUID `12345678-90ab-cdef-AB12-34567890abcd`. -/
theorem guid_literal_roundtrip_witness :
    guidShape "12345678-90ab-cdef-AB12-34567890abcd" = true ∧
    (formatLiteralA (PyVal.str "12345678-90ab-cdef-AB12-34567890abcd") =
        "guid'" ++ "12345678-90ab-cdef-AB12-34567890abcd" ++ "'" ∧
      formatKeyLiteralA (PyVal.str "12345678-90ab-cdef-AB12-34567890abcd") =
        "guid'" ++ "12345678-90ab-cdef-AB12-34567890abcd" ++ "'" ∧
      format_literal (PyVal.str "12345678-90ab-cdef-AB12-34567890abcd") =
        "12345678-90ab-cdef-AB12-34567890abcd" ∧
      format_key_literal (PyVal.str "12345678-90ab-cdef-AB12-34567890abcd") =
        "12345678-90ab-cdef-AB12-34567890abcd") :=
  ⟨by decide, guid_literal_roundtrip "12345678-90ab-cdef-AB12-34567890abcd" (by decide)⟩

/-- C5: `build_path()` produces the collection name, the optional
parenthesized key clause, `/`-joined navigation segments, the bound-action
segment if set, and a trailing `/$count` in count-only mode (formalised as
agreement with the claim-side recomposition `specBuildPath`); in
particular `Query("Flights").key(CarrierId="LH").nav("to_Bookings")`
builds the path `Flights(CarrierId='LH')/to_Bookings`. -/
theorem build_path_layout :
    (∀ q : Query, q.build_path = specBuildPath q) ∧
    (((Query.init "Flights").keyNamed [("CarrierId", PyVal.str "LH")]).nav
        ["to_Bookings"]).build_path = "Flights(CarrierId='LH')/to_Bookings" := by
  constructor
  · intro q
    rcases q with ⟨es, sel, fil, ex, ob, tp, sk, cnt, conly, fmt, keys, nav, cust, act, sp, cl⟩
    rcases keys with _ | ks
    · rcases act with _ | a <;> cases conly <;>
        simp only [Query.build_path, specBuildPath] <;> (try split_ifs) <;>
        simp only [String.append_assoc, String.append_empty, String.empty_append]
    · rcases hf : assocFind "__single__" ks with _ | v <;>
        rcases act with _ | a <;> cases conly <;>
        simp only [Query.build_path, specBuildPath, hf] <;> (try split_ifs) <;>
        simp only [String.append_assoc, String.append_empty, String.empty_append]
  · decide

/-- C9: a builder without an attached client or service path fails with the
configuration `RuntimeError` on `execute`, `execute_action`, `execute_all`
and `get_count` without consulting the transport, and an attached builder
whose action name is unset (or empty) fails `execute_action` with the
no-action configuration error. -/
theorem unbound_execute_config_error {ε α : Type} (q : Query)
    (run runA : String → Query → Except ε α)
    (runAll : String → Query → Nat → Except ε α)
    (runC : String → Query → Except ε Int) (mp : Nat) :
    (q._client = Option.none ∨ q._service_path = Option.none →
      q.execute run = Except.error (ExecErr.runtime notAttachedMsg) ∧
      q.execute_action runA = Except.error (ExecErr.runtime notAttachedMsg) ∧
      q.execute_all runAll mp = Except.error (ExecErr.runtime notAttachedMsg) ∧
      (q.get_count runC).1 = Except.error (ExecErr.runtime notAttachedMsg)) ∧
    (∀ u sp, q._client = some u → q._service_path = some sp →
      actionNameFalsy q._action_name = true →
      q.execute_action runA = Except.error (ExecErr.runtime noActionMsg)) := by
  constructor
  · intro h
    have hrc : q.require_client = Except.error notAttachedMsg := by
      unfold Query.require_client
      rcases h with h | h
      · rw [h]
      · rw [h]; cases q._client <;> rfl
    exact ⟨by simp [Query.execute, hrc], by simp [Query.execute_action, hrc],
      by simp [Query.execute_all, hrc], by simp [Query.get_count, hrc]⟩
  · intro u sp hc hs hfa
    simp [Query.execute_action, Query.require_client, hc, hs, hfa]

/-- Witness for C9: a fresh unattached builder errors on all four
execute-style calls, and an attached builder without an action name errors
on `execute_action`. -/
theorem unbound_execute_config_error_witness :
    ((Query.init "Flights")._client = Option.none ∨
      (Query.init "Flights")._service_path = Option.none) ∧
    ((Query.init "Flights").execute (fun _ _ => (Except.ok 0 : Except Unit Int)) =
        Except.error (ExecErr.runtime notAttachedMsg) ∧
      (Query.init "Flights").execute_action (fun _ _ => (Except.ok 0 : Except Unit Int)) =
        Except.error (ExecErr.runtime notAttachedMsg) ∧
      (Query.init "Flights").execute_all (fun _ _ _ => (Except.ok 0 : Except Unit Int)) 100 =
        Except.error (ExecErr.runtime notAttachedMsg) ∧
      ((Query.init "Flights").get_count (fun _ _ => (Except.ok 0 : Except Unit Int))).1 =
        Except.error (ExecErr.runtime notAttachedMsg)) ∧
    ({ Query.init "Orders" with _client := some (), _service_path := some "/srv" }.execute_action
        (fun _ _ => (Except.ok 0 : Except Unit Int)) =
      Except.error (ExecErr.runtime noActionMsg)) :=
  ⟨Or.inl rfl,
    (unbound_execute_config_error (Query.init "Flights") _ _ _ _ 100).1 (Or.inl rfl),
    (unbound_execute_config_error
        { Query.init "Orders" with _client := some (), _service_path := some "/srv" }
        (fun _ _ => (Except.ok 0 : Except Unit Int))
        (fun _ _ => (Except.ok 0 : Except Unit Int))
        (fun _ _ _ => (Except.ok 0 : Except Unit Int))
        (fun _ _ => (Except.ok 0 : Except Unit Int)) 100).2
      () "/srv" rfl rfl (by decide)⟩

/-- C10: on a client-attached builder, `get_count` restores the count-only
flag in its `finally` block whether the transport returns or raises, so the
builder state after the call equals the state before it and `build()` /
`build_path()` are unchanged. -/
theorem get_count_restores_builder {ε : Type} (q : Query)
    (run : String → Query → Except ε Int)
    (hc : q._client.isSome = true) (hs : q._service_path.isSome = true) :
    ((q.get_count run).2)._count_only = q._count_only ∧
    ((q.get_count run).2).build = q.build ∧
    ((q.get_count run).2).build_path = q.build_path := by
  have hq : (q.get_count run).2 = q := by
    rcases q with ⟨es, sel, fil, ex, ob, tp, sk, cnt, conly, fmt, keys, nav, cust, act, spx, cl⟩
    rcases cl with _ | u
    · simp at hc
    · rcases spx with _ | spv
      · simp at hs
      · rfl
  exact ⟨by rw [hq], by rw [hq], by rw [hq]⟩

/-- An attached builder with some accumulated state, used by the C10
witness. -/
def c10Query : Query :=
  { Query.init "Flights" with
    _client := some (), _service_path := some "/srv", _top := some 3 }

/-- Witness for C10 at a concrete attached builder and a raising transport. -/
theorem get_count_restores_builder_witness :
    c10Query._client.isSome = true ∧
    c10Query._service_path.isSome = true ∧
    ((c10Query.get_count (fun _ _ => (Except.error () : Except Unit Int))).2._count_only =
        c10Query._count_only ∧
      (c10Query.get_count (fun _ _ => (Except.error () : Except Unit Int))).2.build =
        c10Query.build ∧
      (c10Query.get_count (fun _ _ => (Except.error () : Except Unit Int))).2.build_path =
        c10Query.build_path) :=
  ⟨rfl, rfl,
    get_count_restores_builder c10Query
      (fun _ _ => (Except.error () : Except Unit Int)) rfl rfl⟩

/-
Metadata parsing (src/metadata.py).  XML documents are modelled by the
tree type `XElem`; the ElementTree lookups used by the source are
translated as: `find("{ns}Tag")` = first direct child with that tag,
`findall` = all direct children with that tag, `find(".//{ns}Tag")` =
first matching strict descendant in document (preorder) order, and
`iter` = self plus all matching descendants in preorder.
-/

/-- An XML element: fully-qualified tag, attribute list, text, children.
`ET.fromstring` guarantees unique attribute names per element. -/
inductive XElem where
  | mk (tag : String) (attrs : List (String × String)) (text : Option String)
      (children : List XElem)

/-- The tag of an element. -/
def XElem.tag : XElem → String
  | .mk t _ _ _ => t

/-- The attributes of an element. -/
def XElem.attrs : XElem → List (String × String)
  | .mk _ a _ _ => a

/-- The text of an element (`None` when absent). -/
def XElem.text : XElem → Option String
  | .mk _ _ x _ => x

/-- The child elements of an element. -/
def XElem.children : XElem → List XElem
  | .mk _ _ _ c => c

/-- ElementTree's fully-qualified tag `{ns}local`. -/
def qn (ns localName : String) : String := "\x7b" ++ ns ++ "\x7d" ++ localName

/-- Model of `elem.get(name)`. -/
def XElem.get (e : XElem) (a : String) : Option String :=
  (e.attrs.find? fun p => p.1 == a).map (·.2)

/-- Model of `elem.get(name, default)`. -/
def XElem.getD (e : XElem) (a d : String) : String := (e.get a).getD d

/-- Model of `elem.find("{ns}Tag")`: first direct child with the tag. -/
def XElem.findChild (e : XElem) (t : String) : Option XElem :=
  e.children.find? fun c => c.tag == t

/-- Model of `elem.findall("{ns}Tag")`: all direct children with the tag. -/
def XElem.findall (e : XElem) (t : String) : List XElem :=
  e.children.filter fun c => c.tag == t

/-- The children of an element are smaller than the element. -/
theorem XElem.sizeOf_children_lt (e : XElem) : sizeOf e.children < sizeOf e := by
  cases e with
  | mk t a x c => simp [XElem.children]

/-- First matching strict descendant in preorder, over a worklist. -/
def findDescList (t : String) : List XElem → Option XElem
  | [] => Option.none
  | c :: cs =>
    if c.tag == t then some c
    else
      match findDescList t c.children with
      | some r => some r
      | Option.none => findDescList t cs
termination_by l => sizeOf l
decreasing_by
  all_goals
    (have h := XElem.sizeOf_children_lt c
     simp
     try omega)

/-- Model of `elem.find(".//{ns}Tag")`: first matching strict descendant in
document order. -/
def XElem.findDesc (e : XElem) (t : String) : Option XElem :=
  findDescList t e.children

/-- All matching elements in preorder, over a worklist. -/
def iterList (t : String) : List XElem → List XElem
  | [] => []
  | c :: cs =>
    (if c.tag == t then [c] else []) ++ iterList t c.children ++ iterList t cs
termination_by l => sizeOf l
decreasing_by
  all_goals
    (have h := XElem.sizeOf_children_lt c
     simp
     try omega)

/-- Model of `elem.iter("{ns}Tag")`: the element itself plus all matching
descendants in preorder. -/
def XElem.iter (e : XElem) (t : String) : List XElem :=
  (if e.tag == t then [e] else []) ++ iterList t e.children

/-- Python string truthiness of an `Optional[str]`: `None` and `""` are
falsy. -/
def pyTruthy : Option String → Bool
  | some s => s ≠ ""
  | Option.none => false

/-- The whitespace set of Python's `str.strip()` (ASCII fragment). -/
def pySpace (c : Char) : Bool :=
  c = ' ' || c = '\t' || c = '\n' || c = '\r' || c = '\x0b' || c = '\x0c'

/-- Model of `s.strip()`. -/
def pyStrip (s : String) : String :=
  String.mk (((s.data.dropWhile pySpace).reverse.dropWhile pySpace).reverse)

/-- Model of `s.lower()` (ASCII fragment; the source compares against
`"true"`). -/
def pyLower (s : String) : String := String.mk (s.data.map Char.toLower)

/-- Local part of a qualified tag: `tag.split("}")[-1]` when a `}` occurs,
else the tag itself (src/metadata.py line 296). -/
def afterLastBrace (s : String) : String :=
  String.mk ((s.data.reverse.takeWhile fun c => c ≠ '\x7d').reverse)

/-- Last dotted component: `term.split(".")[-1]` when a dot occurs, else the
term itself (src/metadata.py line 220). -/
def afterLastDot (s : String) : String :=
  String.mk ((s.data.reverse.takeWhile fun c => c ≠ '.').reverse)

/-- Model of `target.split("/")[0]` (src/metadata.py line 359). -/
def beforeFirstSlash (s : String) : String :=
  String.mk (s.data.takeWhile fun c => c ≠ '/')

/-- Python `s.isdigit()` on ASCII text: nonempty and all decimal digits. -/
def pyIsDigit (s : String) : Bool := s ≠ "" && s.data.all isDigitCh

/-- The fixed namespace URIs of src/metadata.py.  The module-level dict
`NS` maps `"edmx"`, `"edm"`, `"sap"` and `"m"`; only the `"edm"` entry is
ever reassigned (by `parse_metadata`), so it is threaded through the parse
as explicit state while the others are constants. -/
def NS_sap : String := "http://www.sap.com/Protocols/SAPData"

/-- The metadata namespace `NS["m"]`. -/
def NS_m : String := "http://schemas.microsoft.com/ado/2007/08/dataservices/metadata"

/-- The initial value of `NS["edm"]` at module load. -/
def NS_edm_initial : String := "http://schemas.microsoft.com/ado/2008/09/edm"

/-- The V4-style annotation namespace `NS_EDM_V4`. -/
def NS_EDM_V4 : String := "http://docs.oasis-open.org/odata/ns/edm"

/-- The candidate EDM namespace URIs tried, in order, by `parse_metadata`. -/
def edmCandidates : List String :=
  ["http://schemas.microsoft.com/ado/2008/09/edm",
   "http://schemas.microsoft.com/ado/2006/04/edm",
   "http://schemas.microsoft.com/ado/2009/11/edm"]

/-- Model of `_sap(elem, attr, default)` (src/metadata.py lines 31-32). -/
def sapAttr (e : XElem) (attr : String) (default : String := "") : String :=
  e.getD (qn NS_sap attr) default

/-- Model of `_bool(value, default)` (src/metadata.py lines 35-38):
Python-falsy (empty) input yields the default, otherwise compare the
lowercased value with `"true"`. -/
def pyBoolStr (value : String) (default : Bool := true) : Bool :=
  if value = "" then default else pyLower value = "true"

/-- Dynamically-shaped annotation values as produced by
`_extract_annotation_value`: a Python `str`, `bool`, `dict` (insertion
ordered, modelled as an association list with unique keys), `list`, or
`None`. -/
inductive AnnValue where
  | vstr (s : String)
  | vbool (b : Bool)
  | vrec (fields : List (String × AnnValue))
  | vlist (items : List AnnValue)
  | vnone

/-- Python dict assignment `d[k] = v`: overwrite in place when the key is
present, else append. -/
def dictSet : List (String × AnnValue) → String → AnnValue → List (String × AnnValue)
  | [], k, v => [(k, v)]
  | (k', v') :: rest, k, v =>
    if k' = k then (k', v) :: rest else (k', v') :: dictSet rest k v

/-- Lookup in a Python dict modelled as an association list. -/
def dictGet : List (String × AnnValue) → String → Option AnnValue
  | [], _ => Option.none
  | (k', v') :: rest, k => if k' = k then some v' else dictGet rest k

/-- Python `d.get(k, default)`: the stored value (even a stored `None`), or
the default when the key is absent. -/
def pyDictGetD (d : List (String × AnnValue)) (k : String) (default : AnnValue) : AnnValue :=
  match dictGet d k with
  | some v => v
  | Option.none => default

/-- Python `d.get(k)` (default `None`): a stored `None` and an absent key
are indistinguishable, exactly as in `value.get("Insertable") is not None`. -/
def pyDictGet (d : List (String × AnnValue)) (k : String) : AnnValue :=
  pyDictGetD d k AnnValue.vnone

/-- Python `bool(...)` on an annotation value. -/
def pyBoolOf : AnnValue → Bool
  | AnnValue.vstr s => s ≠ ""
  | AnnValue.vbool b => b
  | AnnValue.vrec d => !d.isEmpty
  | AnnValue.vlist l => !l.isEmpty
  | AnnValue.vnone => false

/-- Embedding of the `Property` dataclass (src/models.py lines 8-25). -/
structure Property where
  name : String
  type : String
  nullable : Bool := true
  max_length : Option Int := Option.none
  label : String := ""
  filterable : Bool := true
  sortable : Bool := true
  creatable : Bool := true
  updatable : Bool := true
  text : String := ""
  quickinfo : String := ""
  value_list : String := ""
  unit : String := ""
  semantics : String := ""
  display_format : String := ""
deriving DecidableEq, Repr

/-- Embedding of the `NavigationProperty` dataclass (src/models.py 28-33). -/
structure NavigationProperty where
  name : String
  relationship : String
  from_role : String
  to_role : String
deriving DecidableEq, Repr

/-- Embedding of the `EntityType` dataclass (src/models.py 36-41). -/
structure EntityType where
  name : String
  properties : List Property := []
  key_properties : List String := []
  navigation_properties : List NavigationProperty := []
deriving DecidableEq, Repr

/-- Embedding of the `AssociationEnd` dataclass (src/models.py 44-48). -/
structure AssociationEnd where
  role : String
  entity_type : String
  multiplicity : String
deriving DecidableEq, Repr

/-- Embedding of the `Association` dataclass (src/models.py 51-55). -/
structure Association where
  name : String
  end1 : Option AssociationEnd := Option.none
  end2 : Option AssociationEnd := Option.none
deriving DecidableEq, Repr

/-- Embedding of the `EntitySet` dataclass (src/models.py 58-65). -/
structure EntitySet where
  name : String
  entity_type : String
  addressable : Bool := true
  creatable : Bool := true
  updatable : Bool := true
  deletable : Bool := true
deriving DecidableEq, Repr

/-- Embedding of the `FunctionImport` dataclass (src/models.py 68-73). -/
structure FunctionImport where
  name : String
  http_method : String := "GET"
  return_type : String := ""
  parameters : List Property := []
deriving DecidableEq, Repr

/-- Embedding of the `ValueListParameter` dataclass (src/models.py 76-80).
The two property fields hold whatever annotation value
`_parse_value_list` pulled out of the record (Python does not enforce the
declared `str` type). -/
structure ValueListParameter where
  type : String
  local_property : AnnValue
  value_list_property : AnnValue

/-- Embedding of the `ValueListInfo` dataclass (src/models.py 83-88); the
label and collection path hold whatever the record lookup produced. -/
structure ValueListInfo where
  label : AnnValue
  collection_path : AnnValue
  search_supported : Bool
  parameters : List ValueListParameter := []

/-- Embedding of the `Annotation` dataclass (src/models.py 91-95). -/
structure Annotation where
  term : String
  qualifier : String := ""
  value : AnnValue := AnnValue.vnone

/-- Embedding of the `ServiceMetadata` dataclass (src/models.py 98-106).
The two dict fields preserve insertion order, modelled as association
lists with unique keys. -/
structure ServiceMetadata where
  schema_namespace : String := ""
  entity_types : List EntityType := []
  associations : List Association := []
  entity_sets : List EntitySet := []
  function_imports : List FunctionImport := []
  annotations : List (String × List Annotation) := []
  value_lists : List (String × ValueListInfo) := []

/-- Python `metadata.annotations.setdefault(target, []).append(a)`:
append to the list stored under the key, creating it at the end of the
insertion order when absent. -/
def annSetdefaultAppend (d : List (String × List Annotation)) (k : String)
    (a : Annotation) : List (String × List Annotation) :=
  match d with
  | [] => [(k, [a])]
  | (k', l) :: rest =>
    if k' = k then (k', l ++ [a]) :: rest
    else (k', l) :: annSetdefaultAppend rest k a

/-- Python `metadata.value_lists[target] = vl`: overwrite in place, or
append when the key is new. -/
def vlSet (d : List (String × ValueListInfo)) (k : String) (v : ValueListInfo) :
    List (String × ValueListInfo) :=
  match d with
  | [] => [(k, v)]
  | (k', v') :: rest =>
    if k' = k then (k', v) :: rest else (k', v') :: vlSet rest k v

/-- Filtering a list never increases its `sizeOf`. -/
theorem sizeOf_filter_le {α : Type} [SizeOf α] (p : α → Bool) (l : List α) :
    sizeOf (l.filter p) ≤ sizeOf l := by
  induction l with
  | nil => simp [List.filter]
  | cons a t ih => by_cases h : p a <;> simp [List.filter, h] <;> omega

/-- A child found by `findChild` is smaller than its parent. -/
theorem XElem.findChild_sizeOf_lt {e c : XElem} {t : String}
    (h : e.findChild t = some c) : sizeOf c < sizeOf e := by
  have hm : c ∈ e.children := List.mem_of_find?_eq_some h
  have h1 := List.sizeOf_lt_of_mem hm
  have h2 := XElem.sizeOf_children_lt e
  omega

/-- The `findall` result of an element is smaller than the element. -/
theorem XElem.findall_sizeOf_lt (e : XElem) (t : String) :
    sizeOf (e.findall t) < sizeOf e :=
  lt_of_le_of_lt (sizeOf_filter_le _ _) (XElem.sizeOf_children_lt e)

/-- Arithmetic helper for the termination measures of the annotation
extraction functions. -/
theorem five_lt {a b : Nat} (h : a < b) : 5 * a + 4 < 5 * b + 4 := by omega

/-- The scalar-child test of the `_extract_annotation_value` loop: a direct
child `<{cns}tag>` whose text is Python-truthy yields the stripped text
(src/metadata.py lines 248-253). -/
def scalarChild (e : XElem) (cns tagName : String) : Option String :=
  match e.findChild (qn cns tagName) with
  | some child =>
    if pyTruthy child.text then some (pyStrip (child.text.getD "")) else Option.none
  | Option.none => Option.none

/-- Python `a or b or ...` over `Optional[str]` operands: the first truthy
operand, else the value of the last operand. -/
def pyOrStr : List (Option String) → Option String
  | [] => Option.none
  | [x] => x
  | x :: rest => if pyTruthy x then x else pyOrStr rest

mutual

/-- Embedding of `_extract_annotation_value` (src/metadata.py lines
231-265): prefer an inline scalar attribute
(String/Bool/EnumMember/Int/Path/EnumValue), else try the child-element
shapes namespace by namespace over `(ns, NS_EDM_V4, NS["edm"])`; when
nothing matches the value is `None`.  `nsEdm` is the current value of the
module-level `NS["edm"]` entry, threaded explicitly.  The function is
total on every finite element tree (accepted by Lean's termination
checker), which is the formal counterpart of "extraction never loops or
fails". -/
def extractAnnotationValue (nsEdm ns : String) (e : XElem) : AnnValue :=
  if let some v := e.get "String" then AnnValue.vstr v
  else if let some v := e.get "Bool" then AnnValue.vbool (pyLower v = "true")
  else if let some v := e.get "EnumMember" then AnnValue.vstr v
  else if let some v := e.get "Int" then AnnValue.vstr v
  else if let some v := e.get "Path" then AnnValue.vstr v
  else if let some v := e.get "EnumValue" then AnnValue.vstr v
  else extractChildValue nsEdm ns e [ns, NS_EDM_V4, nsEdm]
termination_by 5 * sizeOf e + 4
decreasing_by all_goals (try simp
                         try omega)

/-- The child-element loop of `_extract_annotation_value`: for each
candidate namespace, try the five scalar child tags, then a `<Record>`,
then a `<Collection>`; fall through to the next namespace, and finally to
`None`.  The named match hypotheses feed the termination proof. -/
def extractChildValue (nsEdm ns : String) (e : XElem) : List String → AnnValue
  | [] => AnnValue.vnone
  | cns :: rest =>
    match scalarChild e cns "String" with
    | some t => AnnValue.vstr t
    | Option.none =>
    match scalarChild e cns "Bool" with
    | some t => AnnValue.vbool (pyLower t = "true")
    | Option.none =>
    match scalarChild e cns "Int" with
    | some t => AnnValue.vstr t
    | Option.none =>
    match scalarChild e cns "Path" with
    | some t => AnnValue.vstr t
    | Option.none =>
    match scalarChild e cns "EnumMember" with
    | some t => AnnValue.vstr t
    | Option.none =>
    match _hrec : e.findChild (qn cns "Record") with
    | some record => parseRecord nsEdm cns record
    | Option.none =>
    match _hcol : e.findChild (qn cns "Collection") with
    | some collection => parseCollection nsEdm cns collection
    | Option.none => extractChildValue nsEdm ns e rest
termination_by nss => 5 * sizeOf e + nss.length
decreasing_by
  all_goals
    (try have h1 := XElem.findChild_sizeOf_lt _hrec
     try have h2 := XElem.findChild_sizeOf_lt _hcol
     try simp
     try omega)

/-- Embedding of `_parse_record` (src/metadata.py lines 268-289): an
optional `$Type` entry from the `Type` attribute, then the
`<PropertyValue>` children collected namespace by namespace. -/
def parseRecord (nsEdm ns : String) (e : XElem) : AnnValue :=
  let result : List (String × AnnValue) := []
  let result :=
    if e.getD "Type" "" ≠ "" then dictSet result "$Type" (AnnValue.vstr (e.getD "Type" ""))
    else result
  let result := parseRecordPVs nsEdm ns (e.findall (qn ns "PropertyValue")) result
  let result := parseRecordPVs nsEdm ns (e.findall (qn NS_EDM_V4 "PropertyValue")) result
  let result := parseRecordPVs nsEdm ns (e.findall (qn nsEdm "PropertyValue")) result
  AnnValue.vrec result
termination_by 5 * sizeOf e + 4
decreasing_by all_goals exact five_lt (XElem.findall_sizeOf_lt _ _)

/-- The `<PropertyValue>` loop body of `_parse_record`: skip entries with a
falsy `Property` name; prefer the inline attribute chain
`String or Bool or Path or EnumMember` (the Python `or` takes the first
truthy operand, else the last), interpreting it as a boolean whenever a
`Bool` attribute is present; else recurse into the child. -/
def parseRecordPVs (nsEdm ns : String) (pvs : List XElem)
    (result : List (String × AnnValue)) : List (String × AnnValue) :=
  match pvs with
  | [] => result
  | pv :: rest =>
    let prop_name := pv.getD "Property" ""
    let result :=
      if prop_name = "" then result
      else
        match pyOrStr [pv.get "String", pv.get "Bool", pv.get "Path", pv.get "EnumMember"] with
        | some v =>
          if (pv.get "Bool").isSome then
            dictSet result prop_name (AnnValue.vbool (pyLower v = "true"))
          else dictSet result prop_name (AnnValue.vstr v)
        | Option.none => dictSet result prop_name (extractAnnotationValue nsEdm ns pv)
    parseRecordPVs nsEdm ns rest result
termination_by 5 * sizeOf pvs + 4
decreasing_by all_goals (try simp
                         try omega)

/-- Embedding of `_parse_collection` (src/metadata.py lines 292-307): a
list built from the direct children in order. -/
def parseCollection (nsEdm ns : String) (e : XElem) : AnnValue :=
  AnnValue.vlist (parseCollectionItems nsEdm ns e.children)
termination_by 5 * sizeOf e + 4
decreasing_by all_goals (have h1 := XElem.sizeOf_children_lt e
                         try simp
                         try omega)

/-- The child loop of `_parse_collection`: a `Record`-tagged child becomes
a nested record; every other child (PropertyPath, String, AnnotationPath,
or anything else) contributes its stripped text, or `""` when the text is
falsy. -/
def parseCollectionItems (nsEdm ns : String) : List XElem → List AnnValue
  | [] => []
  | child :: rest =>
    (if afterLastBrace child.tag = "Record" then parseRecord nsEdm ns child
     else AnnValue.vstr (if pyTruthy child.text then pyStrip (child.text.getD "") else ""))
      :: parseCollectionItems nsEdm ns rest
termination_by l => 5 * sizeOf l + 4
decreasing_by all_goals (try simp
                         try omega)

end

/-- Decimal value of an all-digit ASCII string (Python `int(...)` on a
string that passed `isdigit()`). -/
def decimalOf (s : String) : Nat :=
  s.data.foldl (fun a c => a * 10 + (c.toNat - '0'.toNat)) 0

/-- Embedding of `_parse_property` (src/metadata.py lines 115-133). -/
def parse_property (e : XElem) : Property :=
  let max_len := e.get "MaxLength"
  { name := e.getD "Name" ""
    type := e.getD "Type" ""
    nullable := pyBoolStr (e.getD "Nullable" "true") true
    max_length :=
      match max_len with
      | some m => if pyIsDigit m then some (Int.ofNat (decimalOf m)) else Option.none
      | Option.none => Option.none
    label := sapAttr e "label"
    filterable := pyBoolStr (sapAttr e "filterable") true
    sortable := pyBoolStr (sapAttr e "sortable") true
    creatable := pyBoolStr (sapAttr e "creatable") true
    updatable := pyBoolStr (sapAttr e "updatable") true
    text := sapAttr e "text"
    quickinfo := sapAttr e "quickinfo"
    value_list := sapAttr e "value-list"
    unit := sapAttr e "unit"
    semantics := sapAttr e "semantics"
    display_format := sapAttr e "display-format" }

/-- Embedding of `_parse_entity_type` (src/metadata.py lines 89-112);
`nsEdm` is the current `NS["edm"]` entry. -/
def parse_entity_type (nsEdm : String) (e : XElem) : EntityType :=
  { name := e.getD "Name" ""
    key_properties :=
      match e.findChild (qn nsEdm "Key") with
      | some key_elem =>
        (key_elem.findall (qn nsEdm "PropertyRef")).map fun pr => pr.getD "Name" ""
      | Option.none => []
    properties := (e.findall (qn nsEdm "Property")).map parse_property
    navigation_properties :=
      (e.findall (qn nsEdm "NavigationProperty")).map fun nav =>
        { name := nav.getD "Name" ""
          relationship := nav.getD "Relationship" ""
          from_role := nav.getD "FromRole" ""
          to_role := nav.getD "ToRole" "" } }

/-- Embedding of `_parse_association` (src/metadata.py lines 136-149):
exactly the first two `End` children become the association ends. -/
def parse_association (nsEdm : String) (e : XElem) : Association :=
  let ends := (e.findall (qn nsEdm "End")).take 2
  let endOf : XElem → AssociationEnd := fun end_elem =>
    { role := end_elem.getD "Role" ""
      entity_type := end_elem.getD "Type" ""
      multiplicity := end_elem.getD "Multiplicity" "" }
  { name := e.getD "Name" ""
    end1 := (ends.get? 0).map endOf
    end2 := (ends.get? 1).map endOf }

/-- Embedding of `_parse_entity_set` (src/metadata.py lines 152-160). -/
def parse_entity_set (e : XElem) : EntitySet :=
  { name := e.getD "Name" ""
    entity_type := e.getD "EntityType" ""
    addressable := pyBoolStr (sapAttr e "addressable") true
    creatable := pyBoolStr (sapAttr e "creatable") true
    updatable := pyBoolStr (sapAttr e "updatable") true
    deletable := pyBoolStr (sapAttr e "deletable") true }

/-- Embedding of `_parse_function_import` (src/metadata.py lines 163-171). -/
def parse_function_import (nsEdm : String) (e : XElem) : FunctionImport :=
  { name := e.getD "Name" ""
    http_method := e.getD (qn NS_m "HttpMethod") "GET"
    return_type := e.getD "ReturnType" ""
    parameters := (e.findall (qn nsEdm "Parameter")).map parse_property }

/-- Embedding of `_strip_namespace` (src/metadata.py lines 192-196). -/
def strip_namespace (target schema_ns : String) : String :=
  if schema_ns != "" && (schema_ns ++ ".").isPrefixOf target then
    target.drop (schema_ns.length + 1)
  else target

/-- Python `x is not None` on an annotation value pulled out of a dict with
`.get` (a stored `None` is the same object as the default `None`). -/
def pyIsNotNone : AnnValue → Bool
  | AnnValue.vnone => false
  | _ => true

/-- String content of a `$Type` annotation-record entry; the entry is a
string whenever `_parse_record` stored it from the `Type` attribute (a
non-string here would make the Python `startswith` call raise, which no
claim exercises). -/
def strOfAnnValue : AnnValue → String
  | AnnValue.vstr s => s
  | _ => ""

/-- The parameter loop of `_parse_value_list` (src/metadata.py lines
322-342): keep only dict-shaped entries; classify the role by stripping
the first matching vocabulary type-name pfx. -/
def valueListParams (ps : List AnnValue) : List ValueListParameter :=
  ps.foldl
    (fun acc p =>
      match p with
      | AnnValue.vrec pd =>
        let p_type_raw := strOfAnnValue (pyDictGetD pd "$Type" (AnnValue.vstr ""))
        let p_type :=
          if p_type_raw.startsWith "com.sap.vocabularies.Common.v1.ValueListParameter" then
            p_type_raw.drop ("com.sap.vocabularies.Common.v1.ValueListParameter".length)
          else if p_type_raw.startsWith "Common.ValueListParameter" then
            p_type_raw.drop ("Common.ValueListParameter".length)
          else p_type_raw
        acc ++ [{ type := p_type
                  local_property := pyDictGetD pd "LocalDataProperty" (AnnValue.vstr "")
                  value_list_property := pyDictGetD pd "ValueListProperty" (AnnValue.vstr "") }]
      | _ => acc)
    []

/-- Embedding of `_parse_value_list` (src/metadata.py lines 310-344). -/
def parse_value_list (nsEdm ns : String) (ann_elem : XElem) : Option ValueListInfo :=
  match extractAnnotationValue nsEdm ns ann_elem with
  | AnnValue.vrec d =>
    some
      { label := pyDictGetD d "Label" (AnnValue.vstr "")
        collection_path := pyDictGetD d "CollectionPath" (AnnValue.vstr "")
        search_supported := pyBoolOf (pyDictGetD d "SearchSupported" (AnnValue.vbool false))
        parameters :=
          match pyDictGet d "Parameters" with
          | AnnValue.vlist ps => valueListParams ps
          | _ => [] }
  | _ => Option.none

/-- The entity-set loop of `_apply_capability_restriction` (src/metadata.py
lines 361-373): locate the first EntitySet named `es_name`, overwrite the
flag selected by the term when the corresponding record field is present,
and stop (`break`). -/
def applyCapLoop (term_short : String) (d : List (String × AnnValue))
    (es_name : String) : List EntitySet → List EntitySet
  | [] => []
  | es :: rest =>
    if es.name = es_name then
      (let insertable := pyDictGet d "Insertable"
       let updatable := pyDictGet d "Updatable"
       let deletable := pyDictGet d "Deletable"
       if term_short = "InsertRestrictions" && pyIsNotNone insertable then
         { es with creatable := pyBoolOf insertable }
       else if term_short = "UpdateRestrictions" && pyIsNotNone updatable then
         { es with updatable := pyBoolOf updatable }
       else if term_short = "DeleteRestrictions" && pyIsNotNone deletable then
         { es with deletable := pyBoolOf deletable }
       else es) :: rest
    else es :: applyCapLoop term_short d es_name rest

/-- Embedding of `_apply_capability_restriction` (src/metadata.py lines
347-373): no-op unless the resolved value is a dict; the entity-set name is
the target up to its first `/`. -/
def applyCapabilityRestriction (term_short : String) (value : AnnValue)
    (target : String) (sets : List EntitySet) : List EntitySet :=
  match value with
  | AnnValue.vrec d => applyCapLoop term_short d (beforeFirstSlash target) sets
  | _ => sets

/-- Embedding of `_parse_annotation_block` (src/metadata.py lines 199-228):
process each child `Annotation` element (under either the V4 or the current
EDM namespace): store it generically, then apply the value-list or
capability-restriction side effect selected by its term. -/
def parse_annotation_block (nsEdm ns target : String) (block : XElem)
    (md : ServiceMetadata) : ServiceMetadata :=
  block.children.foldl
    (fun md ann_elem =>
      if ann_elem.tag != qn NS_EDM_V4 "Annotation" && ann_elem.tag != qn nsEdm "Annotation" then
        md
      else
        let term := ann_elem.getD "Term" ""
        let qualifier := ann_elem.getD "Qualifier" ""
        let value := extractAnnotationValue nsEdm ns ann_elem
        let md :=
          { md with
            annotations := annSetdefaultAppend md.annotations target ⟨term, qualifier, value⟩ }
        let short_term := if term.contains '.' then afterLastDot term else term
        if term = "com.sap.vocabularies.Common.v1.ValueList" || term = "Common.ValueList" then
          match parse_value_list nsEdm ns ann_elem with
          | some vl => { md with value_lists := vlSet md.value_lists target vl }
          | Option.none => md
        else if short_term = "InsertRestrictions" || short_term = "UpdateRestrictions"
            || short_term = "DeleteRestrictions" then
          { md with
            entity_sets := applyCapabilityRestriction short_term value target md.entity_sets }
        else md)
    md

/-- Embedding of `_parse_annotations` (src/metadata.py lines 178-189): scan
for `Annotations` blocks under the V4 namespace and then under the current
EDM namespace; skip blocks with a falsy target; strip the schema-namespace
pfx from the target. -/
def parse_annotations (nsEdm : String) (root : XElem) (md : ServiceMetadata) :
    ServiceMetadata :=
  [NS_EDM_V4, nsEdm].foldl
    (fun md ns =>
      (root.iter (qn ns "Annotations")).foldl
        (fun md ann_block =>
          let target := ann_block.getD "Target" ""
          if target = "" then md
          else
            parse_annotation_block nsEdm ns (strip_namespace target md.schema_namespace)
              ann_block md)
        md)
    md

/-- The schema-root search loop of `parse_metadata` (src/metadata.py lines
46-55): try the candidate EDM namespace URIs in order; the first that finds
a descendant `Schema` element wins. -/
def findSchemaIn (root : XElem) : List String → Option (String × XElem)
  | [] => Option.none
  | u :: rest =>
    match root.findDesc (qn u "Schema") with
    | some schema => some (u, schema)
    | Option.none => findSchemaIn root rest

/-- Embedding of `parse_metadata` (src/metadata.py lines 41-86) over an
already-parsed document tree (`ET.fromstring` raising on malformed text is
outside this model).  The module-level `NS["edm"]` entry is threaded as
explicit state: the argument is its value when the call starts, the second
component of the result is its value when the call returns.  When a schema
root is found, `NS["edm"]` is overwritten with the matching URI before any
dependent lookup runs; when none is found the function returns an empty
model and leaves the state untouched. -/
def parse_metadata (nsEdmState : String) (root : XElem) : ServiceMetadata × String :=
  match findSchemaIn root edmCandidates with
  | Option.none => ({}, nsEdmState)
  | some (uri, schema) =>
    let nsEdm := uri
    let md : ServiceMetadata := {}
    let md := { md with schema_namespace := schema.getD "Namespace" "" }
    let md := { md with entity_types := (schema.findall (qn nsEdm "EntityType")).map (parse_entity_type nsEdm) }
    let md := { md with associations := (schema.findall (qn nsEdm "Association")).map (parse_association nsEdm) }
    let md :=
      match schema.findChild (qn nsEdm "EntityContainer") with
      | some container =>
        { md with
          entity_sets := (container.findall (qn nsEdm "EntitySet")).map parse_entity_set
          function_imports :=
            (container.findall (qn nsEdm "FunctionImport")).map (parse_function_import nsEdm) }
      | Option.none => md
    let md := parse_annotations nsEdm root md
    (md, nsEdm)

/-- C2 (amended): the parse result is deterministic — for every document,
`parse_metadata` returns the same `ServiceMetadata` whatever value the
mutable `NS["edm"]` entry holds when the call starts (i.e. whatever was
parsed before in the process), because the entry is re-resolved from the
document before any dependent lookup. -/
theorem parse_metadata_deterministic (st1 st2 : String) (root : XElem) :
    (parse_metadata st1 root).1 = (parse_metadata st2 root).1 := by
  unfold parse_metadata
  cases findSchemaIn root edmCandidates with
  | none => rfl
  | some p => rfl

/-- A minimal document whose schema lives in the 2006/04 EDM namespace. -/
def doc2006 : XElem :=
  XElem.mk (qn "http://schemas.microsoft.com/ado/2007/06/edmx" "Edmx") [] Option.none
    [XElem.mk (qn "http://schemas.microsoft.com/ado/2006/04/edm" "Schema")
      [("Namespace", "S1")] Option.none []]

/-- C2, counterexample: the resolved namespace URI is NOT a purely local
result — `parse_metadata` writes it into the shared module-level `NS`
mapping (`NS["edm"] = ns_uri`, src/metadata.py line 54), and the write
survives the invocation: after parsing a 2006/04 document the state
differs from the module default it started from. -/
theorem parse_metadata_caches_namespace :
    (parse_metadata NS_edm_initial doc2006).2 =
      "http://schemas.microsoft.com/ado/2006/04/edm" ∧
    "http://schemas.microsoft.com/ado/2006/04/edm" ≠ NS_edm_initial := by
  constructor
  · have h : findSchemaIn doc2006 edmCandidates =
        some ("http://schemas.microsoft.com/ado/2006/04/edm",
          XElem.mk (qn "http://schemas.microsoft.com/ado/2006/04/edm" "Schema")
            [("Namespace", "S1")] Option.none []) := by
      simp [findSchemaIn, edmCandidates, XElem.findDesc, doc2006, findDescList, qn,
        XElem.tag, XElem.children]
    simp [parse_metadata, h]
  · decide

/-- Skipping entity sets whose name does not match: the loop of
`_apply_capability_restriction` passes them through unchanged. -/
theorem applyCapLoop_append_of_not_found (t : String) (d : List (String × AnnValue))
    (nm : String) (pre l : List EntitySet) (h : ∀ x ∈ pre, x.name ≠ nm) :
    applyCapLoop t d nm (pre ++ l) = pre ++ applyCapLoop t d nm l := by
  induction pre with
  | nil => simp
  | cons a rest ih =>
    have ha : a.name ≠ nm := h a (by simp)
    simp [applyCapLoop, ha]
    exact ih fun x hx => h x (by simp [hx])

/-- C6: applying an InsertRestrictions record with `Insertable=false` to a
target whose entity-set name is `Orders` flips the creatable flag of the
first entity set named `Orders` to false while every other flag and every
other entity set keeps its prior value; and for each of the three
restriction terms, absence of the corresponding boolean field leaves the
entity sets entirely untouched. -/
theorem insert_restriction_frame (d : List (String × AnnValue)) (tgt : String)
    (pre suf : List EntitySet) (es : EntitySet)
    (hpre : ∀ x ∈ pre, x.name ≠ "Orders") (hes : es.name = "Orders")
    (htgt : beforeFirstSlash tgt = "Orders") :
    (pyDictGet d "Insertable" = AnnValue.vbool false →
      applyCapabilityRestriction "InsertRestrictions" (AnnValue.vrec d) tgt
          (pre ++ es :: suf) =
        pre ++ { es with creatable := false } :: suf) ∧
    (pyDictGet d "Insertable" = AnnValue.vnone →
      applyCapabilityRestriction "InsertRestrictions" (AnnValue.vrec d) tgt
          (pre ++ es :: suf) =
        pre ++ es :: suf) ∧
    (pyDictGet d "Updatable" = AnnValue.vnone →
      applyCapabilityRestriction "UpdateRestrictions" (AnnValue.vrec d) tgt
          (pre ++ es :: suf) =
        pre ++ es :: suf) ∧
    (pyDictGet d "Deletable" = AnnValue.vnone →
      applyCapabilityRestriction "DeleteRestrictions" (AnnValue.vrec d) tgt
          (pre ++ es :: suf) =
        pre ++ es :: suf) := by
  refine ⟨?_, ?_, ?_, ?_⟩ <;> intro h <;>
    simp [applyCapabilityRestriction, htgt,
      applyCapLoop_append_of_not_found _ _ _ _ _ hpre, applyCapLoop, hes, h,
      pyIsNotNone, pyBoolOf]

/-- An entity set named `Orders` with all capability flags at their default. -/
def c6Orders : EntitySet := { name := "Orders", entity_type := "SRV.Order" }

/-- A second entity set, untouched by the restriction. -/
def c6Other : EntitySet := { name := "Carriers", entity_type := "SRV.Carrier" }

/-- Witness for C6 at concrete entity sets and records. -/
theorem insert_restriction_frame_witness :
    applyCapabilityRestriction "InsertRestrictions"
        (AnnValue.vrec [("Insertable", AnnValue.vbool false)]) "Orders"
        [c6Orders, c6Other] =
      [{ c6Orders with creatable := false }, c6Other] ∧
    applyCapabilityRestriction "InsertRestrictions" (AnnValue.vrec []) "Orders"
        [c6Orders, c6Other] = [c6Orders, c6Other] ∧
    applyCapabilityRestriction "UpdateRestrictions" (AnnValue.vrec []) "Orders"
        [c6Orders, c6Other] = [c6Orders, c6Other] ∧
    applyCapabilityRestriction "DeleteRestrictions" (AnnValue.vrec []) "Orders"
        [c6Orders, c6Other] = [c6Orders, c6Other] :=
  ⟨(insert_restriction_frame [("Insertable", AnnValue.vbool false)] "Orders" []
      [c6Other] c6Orders (by simp) rfl rfl).1 rfl,
    (insert_restriction_frame [] "Orders" [] [c6Other] c6Orders (by simp) rfl rfl).2.1 rfl,
    (insert_restriction_frame [] "Orders" [] [c6Other] c6Orders (by simp) rfl rfl).2.2.1 rfl,
    (insert_restriction_frame [] "Orders" [] [c6Other] c6Orders (by simp) rfl rfl).2.2.2 rfl⟩

/-- When every namespace candidate fails all child-shape tests, the child
loop of `_extract_annotation_value` returns `None`. -/
theorem extractChildValue_none (nsEdm ns : String) (e : XElem) (nss : List String)
    (h : ∀ cns ∈ nss,
      scalarChild e cns "String" = Option.none ∧
      scalarChild e cns "Bool" = Option.none ∧
      scalarChild e cns "Int" = Option.none ∧
      scalarChild e cns "Path" = Option.none ∧
      scalarChild e cns "EnumMember" = Option.none ∧
      e.findChild (qn cns "Record") = Option.none ∧
      e.findChild (qn cns "Collection") = Option.none) :
    extractChildValue nsEdm ns e nss = AnnValue.vnone := by
  induction nss with
  | nil => simp [extractChildValue]
  | cons cns rest ih =>
    obtain ⟨c1, c2, c3, c4, c5, c6, c7⟩ := h cns (by simp)
    rw [extractChildValue]
    simp only [c1, c2, c3, c4, c5]
    split
    · rename_i record heq
      rw [c6] at heq
      simp at heq
    · split
      · rename_i collection heq
        rw [c7] at heq
        simp at heq
      · exact ih fun x hx => h x (by simp [hx])

/-- C7: annotation-value extraction is total (the recursive functions above
are accepted by Lean's termination checker on every finite element tree,
the counterpart of "terminates and never raises"), and whenever none of the
recognized shapes match — no inline scalar attribute, and for every
candidate namespace no truthy-text scalar child, no `Record` child and no
`Collection` child — the result is the Absent value `None`. -/
theorem extract_annotation_value_absent (nsEdm ns : String) (e : XElem)
    (hattr : ∀ a ∈ (["String", "Bool", "EnumMember", "Int", "Path", "EnumValue"] :
        List String), e.get a = Option.none)
    (hchild : ∀ cns ∈ [ns, NS_EDM_V4, nsEdm],
      scalarChild e cns "String" = Option.none ∧
      scalarChild e cns "Bool" = Option.none ∧
      scalarChild e cns "Int" = Option.none ∧
      scalarChild e cns "Path" = Option.none ∧
      scalarChild e cns "EnumMember" = Option.none ∧
      e.findChild (qn cns "Record") = Option.none ∧
      e.findChild (qn cns "Collection") = Option.none) :
    extractAnnotationValue nsEdm ns e = AnnValue.vnone := by
  have h1 := hattr "String" (by simp)
  have h2 := hattr "Bool" (by simp)
  have h3 := hattr "EnumMember" (by simp)
  have h4 := hattr "Int" (by simp)
  have h5 := hattr "Path" (by simp)
  have h6 := hattr "EnumValue" (by simp)
  rw [extractAnnotationValue]
  simp only [h1, h2, h3, h4, h5, h6]
  exact extractChildValue_none nsEdm ns e _ hchild

/-- An annotation element with no attributes and no children. -/
def c7Elem : XElem := XElem.mk (qn NS_EDM_V4 "Annotation") [] Option.none []

/-- Witness for C7 at a concrete childless, attributeless element. -/
theorem extract_annotation_value_absent_witness :
    c7Elem.get "String" = Option.none ∧
    extractAnnotationValue NS_edm_initial NS_EDM_V4 c7Elem = AnnValue.vnone :=
  ⟨rfl,
    extract_annotation_value_absent NS_edm_initial NS_EDM_V4 c7Elem
      (fun _ _ => rfl)
      (fun _ _ => ⟨rfl, rfl, rfl, rfl, rfl, rfl, rfl⟩)⟩

/-
Report generation (src/explorer.py): the pieces the claims exercise.
-/

/-- Embedding of `explorer._is_sap_infra`. -/
def _is_sap_infra (name : String) : Bool := name.startsWith "SAP__"

/-- Python `s.endswith(t)`, modelled over the character lists. -/
def pyEndsWith (s t : String) : Bool := t.data.isSuffixOf s.data

/-- Embedding of `explorer._is_control_field`: RAP control fields end in
`_ac` or `_oc`. -/
def _is_control_field (p : Property) : Bool :=
  pyEndsWith p.name "_ac" || pyEndsWith p.name "_oc"

/-- Embedding of `explorer._prop_short_desc`. -/
def _prop_short_desc (p : Property) : String :=
  if p.label != "" then "`" ++ p.name ++ "` (" ++ p.label ++ ")"
  else "`" ++ p.name ++ "`"

/-- The keys/required classification loop of `explorer._analyze_entity_type`
(src/explorer.py lines 130-137): each property goes to the `keys` list when
its name is among the key properties, otherwise to the `required` list when
it is non-nullable, otherwise to neither — the `if`/`elif` makes the two
classifications mutually exclusive per property. -/
def classifyLoop (key_properties : List String) : List Property → List String × List String
  | [] => ([], [])
  | p :: rest =>
    let (ks, rs) := classifyLoop key_properties rest
    if key_properties.contains p.name then (_prop_short_desc p :: ks, rs)
    else if !p.nullable then (ks, _prop_short_desc p :: rs)
    else (ks, rs)

/-- The keys/required classification of `explorer._analyze_entity_type`
(src/explorer.py lines 126-137), including the control-field filter that
precedes the loop: the result pairs the `keys` descriptions with the
`required` descriptions, in property-declaration order. -/
def classifyKeysRequired (et : EntityType) : List String × List String :=
  let props := et.properties.filter fun p => !_is_control_field p
  classifyLoop et.key_properties props

/-- Attribute values a `ServiceMetadata` instance can hand out; one case per
field of the dataclass in src/models.py lines 98-106. -/
inductive SMAttr where
  | aStr (v : String)
  | aEntityTypes (v : List EntityType)
  | aAssociations (v : List Association)
  | aEntitySets (v : List EntitySet)
  | aFunctionImports (v : List FunctionImport)
  | aAnnotations (v : List (String × List Annotation))
  | aValueLists (v : List (String × ValueListInfo))

/-- Python attribute access on a `ServiceMetadata` instance: exactly the
fields declared by the dataclass (src/models.py lines 98-106) resolve;
every other name — including the `actions`, `functions`, `action_imports`
and `function_imports_v4` consumed by src/explorer.py — raises
`AttributeError`. -/
def ServiceMetadata.getattr (m : ServiceMetadata) : String → Option SMAttr
  | "schema_namespace" => some (SMAttr.aStr m.schema_namespace)
  | "entity_types" => some (SMAttr.aEntityTypes m.entity_types)
  | "associations" => some (SMAttr.aAssociations m.associations)
  | "entity_sets" => some (SMAttr.aEntitySets m.entity_sets)
  | "function_imports" => some (SMAttr.aFunctionImports m.function_imports)
  | "annotations" => some (SMAttr.aAnnotations m.annotations)
  | "value_lists" => some (SMAttr.aValueLists m.value_lists)
  | _ => Option.none

/-- The `AttributeError` message raised by attribute lookup on a missing
dataclass field. -/
def attrErr (name : String) : String :=
  "AttributeError: 'ServiceMetadata' object has no attribute '" ++ name ++ "'"

/-- Attribute access that raises like Python does. -/
def getattrOrErr (m : ServiceMetadata) (n : String) : Except String SMAttr :=
  match m.getattr n with
  | some v => Except.ok v
  | Option.none => Except.error (attrErr n)

/-- Python `len()` of an attribute value. -/
def pyLen : SMAttr → Nat
  | SMAttr.aStr v => v.length
  | SMAttr.aEntityTypes v => v.length
  | SMAttr.aAssociations v => v.length
  | SMAttr.aEntitySets v => v.length
  | SMAttr.aFunctionImports v => v.length
  | SMAttr.aAnnotations v => v.length
  | SMAttr.aValueLists v => v.length

/-- Python truthiness of an attribute value (nonempty). -/
def pyTruthyAttr (a : SMAttr) : Bool := pyLen a != 0

/-- The string content of a string-valued attribute. -/
def strVal : SMAttr → String
  | SMAttr.aStr v => v
  | _ => ""

/-- The entity sets of an entity-set-valued attribute. -/
def entitySetsVal : SMAttr → List EntitySet
  | SMAttr.aEntitySets v => v
  | _ => []

/-- Embedding of `explorer._overview` (src/explorer.py lines 45-68), with
Python attribute access made explicit so that a lookup of a field the
dataclass does not declare raises.  `explore_service` evaluates
`_overview(metadata)` first, so its behaviour on every input is the
behaviour of `explore_service`. -/
def _overview (m : ServiceMetadata) : Except String String := do
  let lines := ["# Service Overview"]
  let ns ← getattrOrErr m "schema_namespace"
  let lines :=
    if pyTruthyAttr ns then lines ++ ["- **Namespace**: `" ++ strVal ns ++ "`"] else lines
  let essA ← getattrOrErr m "entity_sets"
  let ess := entitySetsVal essA
  let biz_sets := ess.filter fun es => !_is_sap_infra es.name
  let infra_sets := ess.length - biz_sets.length
  let lines := lines ++ ["- **Entity Sets**: " ++ toString biz_sets.length]
  let lines := lines ++ ["- **Entity Types**: " ++ toString biz_sets.length]
  let lines :=
    if infra_sets != 0 then
      lines ++ ["- **Framework Entity Sets** (hidden): " ++ toString infra_sets]
    else lines
  let acts ← getattrOrErr m "actions"
  let actImps ← getattrOrErr m "action_imports"
  let n_actions := pyLen acts + pyLen actImps
  let funcs ← getattrOrErr m "functions"
  let fis ← getattrOrErr m "function_imports"
  let fis4 ← getattrOrErr m "function_imports_v4"
  let n_functions := pyLen funcs + pyLen fis + pyLen fis4
  let lines := if n_actions != 0 then lines ++ ["- **Actions**: " ++ toString n_actions] else lines
  let lines :=
    if n_functions != 0 then lines ++ ["- **Functions**: " ++ toString n_functions] else lines
  let vls ← getattrOrErr m "value_lists"
  let lines :=
    if pyTruthyAttr vls then lines ++ ["- **Value Helps**: " ++ toString (pyLen vls)] else lines
  pure (String.intercalate "\n" lines)

/-- C4 (code bug): `models.ServiceMetadata` does not carry the
second-generation operation descriptors at all — it has no `actions`,
`functions`, `action_imports` or `function_imports_v4` fields — so the
report generator's overview, which reads `metadata.actions`
unconditionally, raises `AttributeError` on every `ServiceMetadata`
value. -/
theorem overview_attribute_error (m : ServiceMetadata) :
    _overview m = Except.error (attrErr "actions") := rfl

/-- The claimed classification predicates of C8 on one property: `key` when
the name is among the key properties; `required` when it is not and the
property is non-nullable.  Mutual exclusivity is immediate from the
negation in the second predicate. -/
def keyTest (kp : List String) (p : Property) : Bool := kp.contains p.name

/-- The `required` predicate of C8. -/
def requiredTest (kp : List String) (p : Property) : Bool :=
  !kp.contains p.name && !p.nullable

/-- The classification loop produces exactly the key-test filter and the
required-test filter, in order. -/
theorem classifyLoop_eq (kp : List String) (props : List Property) :
    classifyLoop kp props =
      ((props.filter fun p => keyTest kp p).map _prop_short_desc,
        (props.filter fun p => requiredTest kp p).map _prop_short_desc) := by
  induction props with
  | nil => rfl
  | cons p rest ih =>
    by_cases h1 : p.name ∈ kp <;> by_cases h2 : p.nullable = true <;>
      simp [classifyLoop, ih, keyTest, requiredTest, h1, h2, List.filter]

/-- C8 (amended): among the analyzed properties — those that survive the
RAP control-field filter (names ending `_ac`/`_oc` are skipped) — every
property whose name is among the key properties is classified `key`, every
non-nullable property whose name is not among them is classified
`required` (each exactly once, in declaration order), and the two
classifications are mutually exclusive for every property. -/
theorem field_classification (et : EntityType) :
    (classifyKeysRequired et).1 =
      ((et.properties.filter fun p => !_is_control_field p).filter
          fun p => keyTest et.key_properties p).map _prop_short_desc ∧
    (classifyKeysRequired et).2 =
      ((et.properties.filter fun p => !_is_control_field p).filter
          fun p => requiredTest et.key_properties p).map _prop_short_desc ∧
    ∀ p : Property, ¬(keyTest et.key_properties p = true ∧
      requiredTest et.key_properties p = true) := by
  refine ⟨?_, ?_, ?_⟩
  · simp [classifyKeysRequired, classifyLoop_eq]
  · simp [classifyKeysRequired, classifyLoop_eq]
  · rintro p ⟨ha, hb⟩
    simp [keyTest] at ha
    simp [requiredTest, ha] at hb

/-- A RAP control field: non-nullable, not a key, name ending in `_ac`. -/
def c8Prop : Property := { name := "Qty_ac", type := "Edm.Boolean", nullable := false }

/-- An entity type whose only property is the control field above. -/
def c8Et : EntityType := { name := "Sales", properties := [c8Prop] }

/-- C8, counterexample: the claim as stated quantifies over every Property,
but a non-nullable non-key property whose name ends in `_ac` is filtered
out as a RAP control field before classification (src/explorer.py lines
126-127) and is never classified `required`. -/
theorem field_classification_counterexample :
    c8Prop ∈ c8Et.properties ∧ c8Prop.nullable = false ∧
    c8Et.key_properties.contains c8Prop.name = false ∧
    (classifyKeysRequired c8Et).2 = [] := by decide

end SapOData
